import Mathlib

/-!
Verification of the version-resolution and configuration logic of
`docs/conf.py` (Sphinx configuration for the ReqShield project).

The file's only computation is:
* `get_version`: a three-tier fallback resolving a version string from the
  `READTHEDOCS` / `READTHEDOCS_VERSION` environment variables, a
  `git rev-parse --abbrev-ref HEAD` subprocess, and the literal `"latest"`;
* the copyright line `f"2024-{year_now}"` where `year_now` is
  `datetime.date.today().strftime("%Y")`;
* module-level assignments `version = get_version()`, `release = version`
  and `html_context = {..., "github_version": version, ...}`.

We embed these shallowly: the process environment is a map from variable
name to optional value (mirroring `os.environ.get`), and the subprocess is
an explicit outcome value (raised an exception, or a read from the pipe's
stdout which Python defends against being `None` via `or ""`).
-/

/-- The process environment, as consulted through `os.environ.get`:
a total map from variable name to optional value. -/
abbrev Environ := String → Option String

/-- Outcome of the `git rev-parse --abbrev-ref HEAD` subprocess invocation
inside the `try:` block of `get_version`.
`raised` models any exception escaping `Popen`/`read` (caught by
`except Exception`); `read s` models `pipe.stdout.read()` returning `s`,
where `none` models a `None` read (defended by `or ""` in the source). -/
inductive GitOutcome where
  | raised : GitOutcome
  | read : Option String → GitOutcome
deriving DecidableEq, Repr

/-- Python's `str.strip()` character class as used on the subprocess output:
ASCII whitespace (space, tab, linefeed, return, vertical tab, form feed). -/
def isPyWhitespace (c : Char) : Bool :=
  c = ' ' || c = '\t' || c = '\n' || c = '\r' || c = '\x0b' || c = '\x0c'

/-- `str.strip()` on the character list: drop whitespace from both ends. -/
def stripChars (l : List Char) : List Char :=
  ((l.dropWhile isPyWhitespace).reverse.dropWhile isPyWhitespace).reverse

/-- Python's `str.strip()`: remove leading and trailing whitespace. -/
def pyStrip (s : String) : String :=
  ⟨stripChars s.data⟩

/-- The `try:` block of `get_version` in `docs/conf.py`:
`v = (pipe.stdout.read() or "").strip(); return v or "latest"`,
with the `except Exception: return "latest"` handler. -/
def git_fallback (git : GitOutcome) : String :=
  match git with
  | .raised => "latest"
  | .read s =>
      let v := pyStrip (s.getD "")
      if v = "" then "latest" else v

/-- `get_version` from `docs/conf.py`:
```
if os.environ.get("READTHEDOCS") == "True":
    v = os.environ.get("READTHEDOCS_VERSION")
    if v:
        return v
try:
    pipe = Popen("git rev-parse --abbrev-ref HEAD", ...)
    v = (pipe.stdout.read() or "").strip()
    return v or "latest"
except Exception:
    return "latest"
```
Python's `if v:` is true exactly when `v` is a non-`None`, non-empty
string. -/
def get_version (environ : Environ) (git : GitOutcome) : String :=
  if environ "READTHEDOCS" = some "True" then
    match environ "READTHEDOCS_VERSION" with
    | some v => if v = "" then git_fallback git else v
    | none => git_fallback git
  else
    git_fallback git

/-- `year_now = datetime.date.today().strftime("%Y")`: the current year
printed in decimal, modelled on the year number of today's date. -/
def year_now (todayYear : Nat) : String :=
  Nat.repr todayYear

/-- The build date's relevant component: the current year. -/
structure BuildDate where
  year : Nat
deriving Repr

/-- The `html_context` mapping assigned in `docs/conf.py`. -/
structure HtmlContext where
  display_github : Bool
  github_user : String
  github_repo : String
  github_version : String
  conf_py_path : String
deriving Repr

/-- The module-level configuration values of `docs/conf.py` that the
claims are about, produced by executing the module once at build time. -/
structure ConfModule where
  project : String
  author : String
  copyright : String
  version : String
  release : String
  html_context : HtmlContext
deriving Repr

/-- One execution of `docs/conf.py` at module import: reads the
environment, runs (at most) one subprocess, observes today's date, and
binds the module-level configuration values.  `version = get_version()`,
`release = version`, and `html_context["github_version"] = version`
mirror the source assignments. -/
def conf_module (environ : Environ) (git : GitOutcome) (today : BuildDate) :
    ConfModule :=
  let v := get_version environ git
  { project := "ReqShield"
    author := "abmmhasan (infocyph)"
    copyright := "2024-" ++ year_now today.year
    version := v
    release := v
    html_context :=
      { display_github := false
        github_user := "infocyph"
        github_repo := "ReqShield"
        github_version := v
        conf_py_path := "/docs/" } }

/-- A concrete environment for witnesses: `READTHEDOCS=True`,
`READTHEDOCS_VERSION=stable`. -/
def envHosted : Environ := fun k =>
  if k = "READTHEDOCS" then some "True"
  else if k = "READTHEDOCS_VERSION" then some "stable"
  else none

/-- A concrete environment: `READTHEDOCS=True` set but
`READTHEDOCS_VERSION` absent. -/
def envHostedNoVersion : Environ := fun k =>
  if k = "READTHEDOCS" then some "True" else none

/-- A concrete environment with no relevant variables set. -/
def envEmpty : Environ := fun _ => none

/-- A concrete environment where `READTHEDOCS` is `"true"` (wrong case)
and an unrelated variable is also set. -/
def envLowercase : Environ := fun k =>
  if k = "READTHEDOCS" then some "true"
  else if k = "HOME" then some "/root"
  else none

/-- A concrete environment setting only a variable `get_version` never
reads. -/
def envOther : Environ := fun k =>
  if k = "PATH" then some "/bin" else none

/-! ## Helper lemmas -/

/-- The `try`/`except` block never produces the empty string: its result is
either the literal `"latest"` or a string that passed the `v or "latest"`
truthiness test. -/
theorem git_fallback_ne_empty (git : GitOutcome) : git_fallback git ≠ "" := by
  cases git with
  | raised => simp [git_fallback]
  | read s =>
    simp only [git_fallback]
    split
    · simp
    · next h => exact h

/-- The decimal representation of a four-digit number has length four. -/
theorem repr_len_four (y : Nat) (h1 : 1000 ≤ y) (h2 : y ≤ 9999) :
    (Nat.repr y).length = 4 := by
  obtain ⟨m, rfl⟩ : ∃ m, y = m + 1000 := ⟨y - 1000, by omega⟩
  have e1 : ¬((m + 1000) / 10 = 0) := by omega
  have e2 : ¬((m + 1000) / 10 / 10 = 0) := by omega
  have e3 : ¬((m + 1000) / 10 / 10 / 10 = 0) := by omega
  have e4 : (m + 1000) / 10 / 10 / 10 / 10 = 0 := by omega
  simp [Nat.repr, Nat.toDigits, Nat.toDigitsCore, List.asString, String.length,
    e1, e2, e3, e4]

/-! ## Claim theorems -/

/-- C1: when `READTHEDOCS` is set to `"True"` and `READTHEDOCS_VERSION` is
present and non-empty, `get_version` returns exactly that variable's value,
unchanged, whatever the subprocess would have done. -/
theorem get_version_hosted (environ : Environ) (git : GitOutcome) (v : String)
    (hflag : environ "READTHEDOCS" = some "True")
    (hv : environ "READTHEDOCS_VERSION" = some v) (hne : v ≠ "") :
    get_version environ git = v := by
  simp [get_version, hflag, hv, hne]

/-- Witness for C1: under `READTHEDOCS=True`, `READTHEDOCS_VERSION=stable`,
the resolved version is `"stable"` even when the subprocess raises. -/
theorem get_version_hosted_witness :
    get_version envHosted .raised = "stable" :=
  get_version_hosted envHosted .raised "stable" rfl rfl (by decide)

/-- C2: when the `READTHEDOCS` flag is absent and the version-control
subprocess succeeds (its stdout trims to a non-empty string), `get_version`
returns the subprocess's standard output with surrounding whitespace
trimmed. -/
theorem get_version_git_success (environ : Environ) (s : String)
    (hflag : environ "READTHEDOCS" = none)
    (hne : pyStrip s ≠ "") :
    get_version environ (.read (some s)) = pyStrip s := by
  simp [get_version, git_fallback, hflag, hne]

/-- Witness for C2: with no environment variables set, stdout
`" main\n"` resolves to the trimmed `"main"`. -/
theorem get_version_git_success_witness :
    get_version envEmpty (.read (some " main\n")) = pyStrip " main\n" :=
  get_version_git_success envEmpty " main\n" rfl (by decide)

/-- C3 counterexample: with `READTHEDOCS=True` set, `READTHEDOCS_VERSION`
absent, and the subprocess printing `"main\n"`, `get_version` returns
`"main"`, not the placeholder `"latest"`: the version-control step IS
consulted when the hosted variable is missing. -/
theorem get_version_hosted_empty_cex :
    envHostedNoVersion "READTHEDOCS" = some "True" ∧
    envHostedNoVersion "READTHEDOCS_VERSION" = none ∧
    get_version envHostedNoVersion (.read (some "main\n")) = "main" ∧
    get_version envHostedNoVersion (.read (some "main\n")) ≠ "latest" := by
  refine ⟨rfl, rfl, ?_, ?_⟩ <;> decide

/-- C3 amended: when the `READTHEDOCS` flag is set to `"True"` but
`READTHEDOCS_VERSION` is absent or empty, `get_version` falls through to
the version-control step: its result is exactly the result of the
`try`/`except` git fallback (which yields the placeholder `"latest"` only
when that step raises or its output trims to empty). -/
theorem get_version_hosted_empty_falls_through (environ : Environ)
    (git : GitOutcome)
    (hflag : environ "READTHEDOCS" = some "True")
    (hv : environ "READTHEDOCS_VERSION" = none ∨
          environ "READTHEDOCS_VERSION" = some "") :
    get_version environ git = git_fallback git := by
  rcases hv with hv | hv <;> simp [get_version, hflag, hv]

/-- Witness for the amended C3: `READTHEDOCS=True` with no version
variable and stdout `"main\n"` gives the git fallback's answer. -/
theorem get_version_hosted_empty_falls_through_witness :
    get_version envHostedNoVersion (.read (some "main\n")) =
      git_fallback (.read (some "main\n")) :=
  get_version_hosted_empty_falls_through envHostedNoVersion
    (.read (some "main\n")) rfl (Or.inl rfl)

/-- C4: when the hosted source is unavailable (the flag is not the exact
string `"True"`, or the version variable is absent or empty) and the
subprocess fails in any way (raises, or its stdout — `None` or a string —
trims to empty), `get_version` returns the literal `"latest"`.  No
exception propagates: `get_version` is a total function into `String`. -/
theorem get_version_failure_latest (environ : Environ) (git : GitOutcome)
    (hhosted : ¬ (environ "READTHEDOCS" = some "True" ∧
        ∃ v, environ "READTHEDOCS_VERSION" = some v ∧ v ≠ ""))
    (hgit : git = .raised ∨ ∃ s, git = .read s ∧ pyStrip (s.getD "") = "") :
    get_version environ git = "latest" := by
  have hfb : git_fallback git = "latest" := by
    rcases hgit with rfl | ⟨s, rfl, hs⟩
    · rfl
    · simp [git_fallback, hs]
  by_cases hflag : environ "READTHEDOCS" = some "True"
  · cases hv : environ "READTHEDOCS_VERSION" with
    | none => simp [get_version, hflag, hv, hfb]
    | some v =>
      have hv0 : v = "" := by
        by_contra hne
        exact hhosted ⟨hflag, v, hv, hne⟩
      subst hv0
      simp [get_version, hflag, hv, hfb]
  · simp [get_version, hflag, hfb]

/-- Witness for C4: empty environment and a raising subprocess give
`"latest"`. -/
theorem get_version_failure_latest_witness :
    get_version envEmpty .raised = "latest" :=
  get_version_failure_latest envEmpty .raised
    (by rintro ⟨h, -⟩; exact Option.noConfusion h) (Or.inl rfl)

/-- C5: for every environment and every subprocess outcome, the string
returned by `get_version` is non-empty. -/
theorem get_version_ne_empty (environ : Environ) (git : GitOutcome) :
    get_version environ git ≠ "" := by
  by_cases hflag : environ "READTHEDOCS" = some "True"
  · cases hv : environ "READTHEDOCS_VERSION" with
    | none => simp [get_version, hflag, hv, git_fallback_ne_empty git]
    | some v =>
      by_cases hv0 : v = ""
      · simp [get_version, hflag, hv, hv0, git_fallback_ne_empty git]
      · simp [get_version, hflag, hv, hv0]
  · simp [get_version, hflag, git_fallback_ne_empty git]

/-- C6: the copyright configuration value equals the string `"2024-"`
followed by the current year, and for four-digit years (every year from
1000 to 9999, hence every current year) the appended year string indeed
has exactly four characters. -/
theorem conf_copyright_eq (environ : Environ) (git : GitOutcome)
    (d : BuildDate) (h1 : 1000 ≤ d.year) (h2 : d.year ≤ 9999) :
    (conf_module environ git d).copyright = "2024-" ++ year_now d.year ∧
    (year_now d.year).length = 4 :=
  ⟨rfl, repr_len_four d.year h1 h2⟩

/-- Witness for C6: a build in 2025 gets copyright `"2024-" ++ "2025"`. -/
theorem conf_copyright_eq_witness :
    (conf_module envEmpty .raised ⟨2025⟩).copyright =
      "2024-" ++ year_now 2025 ∧ (year_now 2025).length = 4 :=
  conf_copyright_eq envEmpty .raised ⟨2025⟩ (by decide) (by decide)

/-- C7: the hosted branch is taken only when `READTHEDOCS` compares equal
to the exact string `"True"`.  For any other value of the variable
(including `"true"`, `"1"`, or unset), `get_version` proceeds to the
version-control query, ignoring `READTHEDOCS_VERSION` entirely. -/
theorem get_version_exact_flag_match (environ : Environ) (git : GitOutcome)
    (hflag : environ "READTHEDOCS" ≠ some "True") :
    get_version environ git = git_fallback git := by
  simp [get_version, hflag]

/-- Witness for C7: `READTHEDOCS=true` (lower case) does not take the
hosted branch; the git fallback decides the version. -/
theorem get_version_exact_flag_match_witness :
    get_version envLowercase (.read (some "dev")) =
      git_fallback (.read (some "dev")) :=
  get_version_exact_flag_match envLowercase (.read (some "dev")) (by decide)

/-- C8: after module initialization, `release` and
`html_context["github_version"]` both equal the `version` value, which is
the result of the single `get_version` call: the three never diverge. -/
theorem conf_release_github_version_agree (environ : Environ)
    (git : GitOutcome) (d : BuildDate) :
    (conf_module environ git d).release = (conf_module environ git d).version ∧
    (conf_module environ git d).html_context.github_version =
      (conf_module environ git d).version ∧
    (conf_module environ git d).version = get_version environ git :=
  ⟨rfl, rfl, rfl⟩

/-- C9: `get_version` is deterministic in its inputs: two runs agreeing on
the `READTHEDOCS` and `READTHEDOCS_VERSION` variables and on the
subprocess outcome return the same string, whatever else the environments
contain. -/
theorem get_version_deterministic (e1 e2 : Environ) (g1 g2 : GitOutcome)
    (hrtd : e1 "READTHEDOCS" = e2 "READTHEDOCS")
    (hver : e1 "READTHEDOCS_VERSION" = e2 "READTHEDOCS_VERSION")
    (hgit : g1 = g2) :
    get_version e1 g1 = get_version e2 g2 := by
  subst hgit
  unfold get_version
  rw [hrtd, hver]

/-- Witness for C9: the empty environment and one that only sets `PATH`
agree on the two relevant variables, so the resolved versions agree. -/
theorem get_version_deterministic_witness :
    get_version envEmpty (.read (some "main")) =
      get_version envOther (.read (some "main")) :=
  get_version_deterministic envEmpty envOther _ _ rfl rfl rfl
